import Mathlib

/-!
Verification of the payment-webhook / subscription core of the
betterpickzbot repository (source files `bot.py` and `main.py`).

The Python source is shallowly embedded:
* machine timestamps are integers (epoch seconds); `timedelta(days=d)` is
  `d * 86400`;
* monetary amounts are integers counting exact cents (the source's
  float dollars only ever carry cent-precision values on the verified
  paths; 10.50 dollars is the integer 1050);
* the HMAC-SHA256 hex digest computed by the `hmac`/`hashlib` standard
  library is abstracted as an opaque pure function
  `hmacF : String -> List Nat -> String` (keyed digest of the raw bytes);
* fallible infrastructure writes (Supabase PATCH / INSERT confirming or
  not) are modelled by explicit boolean outcome parameters;
* the webhook handler returns, besides its HTTP response and the updated
  store, a trace of externally visible events in execution order.
-/

/-! ## Python dynamic values (for `validate_telegram_id`, bot.py 109-115) -/

/-- Exception classes relevant to `int(...)` conversion in Python. -/
inductive PyErr
  | valueError
  | typeError
  | overflowError
deriving DecidableEq

/-- A Python runtime value, restricted to the shapes that can reach the
validation utilities: integers, booleans, strings, floats (a finite float
is carried exactly as a rational; the special values infinity and NaN get
their own constructors), and `None`. -/
inductive PyVal
  | int (n : ℤ)
  | bool (b : Bool)
  | str (s : String)
  | float (q : ℚ)
  | floatInf
  | floatNegInf
  | floatNaN
  | none
deriving DecidableEq

/-- Decimal digit value of a character, if it is a digit. -/
def digitVal (c : Char) : Option ℕ :=
  if c.isDigit then some (c.toNat - 48) else Option.none

/-- Accumulate decimal digits; fails on a non-digit. -/
def parseDigitsAux (cs : List Char) (acc : ℕ) : Option ℕ :=
  match cs with
  | [] => some acc
  | c :: rest =>
    match digitVal c with
    | some d => parseDigitsAux rest (acc * 10 + d)
    | Option.none => Option.none

/-- Parse a nonempty all-digit character list as a natural number. -/
def parseDigits (cs : List Char) : Option ℕ :=
  match cs with
  | [] => Option.none
  | _ => parseDigitsAux cs 0

/-- Python `int(s)` on a string: surrounding whitespace is ignored, an
optional sign precedes a nonempty digit run.  (Underscore digit grouping,
a niche Python literal feature, is not modelled.) -/
def parseIntLit (s : String) : Option ℤ :=
  let cs := (((s.toList.dropWhile Char.isWhitespace).reverse.dropWhile
      Char.isWhitespace).reverse)
  match cs with
  | '+' :: rest => (parseDigits rest).map Int.ofNat
  | '-' :: rest => (parseDigits rest).map (fun n => -(n : ℤ))
  | rest => (parseDigits rest).map Int.ofNat

/-- Python `int(x)` on a finite float truncates toward zero. -/
def pyTruncFloat (q : ℚ) : ℤ :=
  if 0 ≤ q then ⌊q⌋ else ⌈q⌉

/-- Python `int(x)`: succeeds on ints, bools, numeric strings and finite
floats; raises `ValueError` on non-numeric strings and NaN, `TypeError`
on `None`, and `OverflowError` on an infinite float. -/
def pyInt (v : PyVal) : Except PyErr ℤ :=
  match v with
  | .int n => .ok n
  | .bool b => .ok (if b then 1 else 0)
  | .str s =>
    match parseIntLit s with
    | some n => .ok n
    | Option.none => .error .valueError
  | .float q => .ok (pyTruncFloat q)
  | .floatInf => .error .overflowError
  | .floatNegInf => .error .overflowError
  | .floatNaN => .error .valueError
  | .none => .error .typeError

/-- bot.py 109-115.  `int(telegram_id)` then a bounds check; the
`except (ValueError, TypeError)` clause returns `False` for those two
exception classes only — an `OverflowError` escapes to the caller. -/
def validate_telegram_id (v : PyVal) : Except PyErr Bool :=
  match pyInt v with
  | .ok t => .ok (decide (0 < t) && decide (t < 10 ^ 15))
  | .error .valueError => .ok false
  | .error .typeError => .ok false
  | .error e => .error e

/-- The bounds test of `validate_telegram_id` specialised to an integer
value, as used on the numeric ids stored in the database. -/
def validTelegramIdInt (t : ℤ) : Bool :=
  decide (0 < t) && decide (t < 10 ^ 15)

/-! ## Amount validation (bot.py 118-124) -/

/-- bot.py 54: 1.00 dollars, in cents. -/
def MIN_SUBSCRIPTION_PRICE : ℤ := 100

/-- bot.py 55: 10000.00 dollars, in cents. -/
def MAX_SUBSCRIPTION_PRICE : ℤ := 1000000

/-- bot.py 118-124 on an amount already carried as a number (cents). -/
def validate_amount (a : ℤ) : Bool :=
  decide (MIN_SUBSCRIPTION_PRICE ≤ a) && decide (a ≤ MAX_SUBSCRIPTION_PRICE)

/-! ## String sanitization (bot.py 101-106)

Python's Unicode character classes `str.isprintable` and `str.isspace`
are library facts, so the embedding is parametric in the two character
predicates `ispr` and `issp`; every theorem below holds for all choices. -/

/-- Python slice `l[:n]` for an arbitrary (possibly negative) `n`. -/
def pySliceTo (l : List Char) (n : ℤ) : List Char :=
  if 0 ≤ n then l.take n.toNat else l.take ((l.length : ℤ) + n).toNat

/-- Python `str.strip()`: drop leading and trailing whitespace-class
characters. -/
def pyStrip (issp : Char → Bool) (l : List Char) : List Char :=
  ((l.dropWhile issp).reverse.dropWhile issp).reverse

/-- The string branch of bot.py 101-106: keep printable-or-space
characters, slice to `maxLength`, strip. -/
def sanitizeStr (ispr issp : Char → Bool) (s : String) (maxLength : ℤ) : String :=
  String.mk (pyStrip issp (pySliceTo (s.toList.filter (fun c => ispr c || issp c)) maxLength))

/-- bot.py 101-106.  A non-string value yields the empty string. -/
def sanitize_string (ispr issp : Char → Bool) (v : PyVal) (maxLength : ℤ) : String :=
  match v with
  | .str s => sanitizeStr ispr issp s maxLength
  | _ => ""

/-! ## Webhook signature verification (bot.py 127-146) -/

/-- Strip the optional `sha256=` scheme tag from a supplied signature
(Python `signature.startswith` and `signature[7:]`, rendered on the
character list). -/
def dropSigScheme (sig : String) : String :=
  if sig.toList.take 7 = "sha256=".toList then String.mk (sig.toList.drop 7) else sig

/-- bot.py 127-146.  `hmacF` abstracts the `hmac`/`hashlib` HMAC-SHA256
hex digest of the raw payload bytes under the secret;
`hmac.compare_digest` is modelled at the value level as string equality
(its constant-time execution is a timing property outside the embedding).
An unconfigured (empty) secret or an empty signature short-circuits to
`false`; the Python `try`/`except` makes the function total. -/
def verify_btcpay_webhook (hmacF : String → List ℕ → String)
    (secret : String) (payload : List ℕ) (signature : String) : Bool :=
  if secret = "" || signature = "" then false
  else dropSigScheme signature == hmacF secret payload

/-! ## Store records (Supabase rows used by the webhook path) -/

/-- A row of the `payments` table, with the fields the webhook handler
reads or writes. -/
structure PaymentRec where
  id : ℕ
  user_id : ℤ
  btcpay_invoice_id : String
  amount : ℤ
  currency : String
  status : String
  subscription_id : Option ℕ
  paid_at : Option ℤ
  webhook_received_at : Option ℤ
deriving DecidableEq

/-- A row of the `subscriptions` table. -/
structure SubRec where
  id : ℕ
  user_id : ℤ
  status : String
  plan_type : String
  amount_paid : ℤ
  start_date : ℤ
  end_date : ℤ
  created_at : ℤ
  updated_at : Option ℤ
deriving DecidableEq

/-- The mutable storage shared by the handler: the two tables the webhook
path reads and writes. -/
structure Store where
  payments : List PaymentRec
  subscriptions : List SubRec
deriving DecidableEq

/-- Seconds in a day: `timedelta(days=d)` is `d * 86400`. -/
def SECONDS_PER_DAY : ℤ := 86400

/-- One step of the latest-row selection: keep the accumulated row unless
the new row has a strictly larger `end_date`. -/
def latestStep (acc : Option SubRec) (s : SubRec) : Option SubRec :=
  match acc with
  | Option.none => some s
  | some b => if b.end_date < s.end_date then some s else some b

/-- Fold of bot.py 398-404: among the rows keep the one with the largest
`end_date` (the query's `order end_date desc`, `limit 1`). -/
def pickLatest (l : List SubRec) : Option SubRec :=
  l.foldl latestStep Option.none

/-- bot.py 398-404: the user's `status = 'active'` subscription row with
the latest `end_date` (no end-date cutoff is applied in this query). -/
def findActiveLatest (subs : List SubRec) (uid : ℤ) : Option SubRec :=
  pickLatest (subs.filter (fun s => s.user_id == uid && s.status == "active"))

/-- Fresh id for an inserted subscription row (the database's id
assignment, modelled as one more than the current maximum). -/
def freshSubId (subs : List SubRec) : ℕ :=
  subs.foldl (fun a s => Nat.max a s.id) 0 + 1

/-- Result of `create_or_extend_subscription`: the returned row (`None`
on failure), the store afterwards, and whether the cached subscription
snapshot for the user was invalidated. -/
structure SubUpdateResult where
  row : Option SubRec
  store : Store
  cacheInvalidated : Bool
deriving DecidableEq

/-- bot.py 392-451.  `writeOk` is the outcome of the underlying Supabase
write (`update`/`insert` confirming with data or not); on a failed write
the store is unchanged and `None` is returned.  The unused `invoice_id`
parameter mirrors the source signature. -/
def create_or_extend_subscription (store : Store) (telegram_id : ℤ)
    (amount : ℤ) (_invoice_id : String) (now : ℤ) (days : ℤ)
    (writeOk : Bool) : SubUpdateResult :=
  if validTelegramIdInt telegram_id = false then ⟨Option.none, store, false⟩
  else
    match findActiveLatest store.subscriptions telegram_id with
    | some sub =>
      if writeOk then
        let newEnd := max sub.end_date now + days * SECONDS_PER_DAY
        { row := some { sub with end_date := newEnd, updated_at := some now }
          store := { store with
            subscriptions := store.subscriptions.map (fun s =>
              if s.id = sub.id then { s with end_date := newEnd, updated_at := some now } else s) }
          cacheInvalidated := true }
      else ⟨Option.none, store, false⟩
    | Option.none =>
      if writeOk then
        let row : SubRec :=
          { id := freshSubId store.subscriptions
            user_id := telegram_id
            status := "active"
            plan_type := "monthly"
            amount_paid := amount
            start_date := now
            end_date := now + days * SECONDS_PER_DAY
            created_at := now
            updated_at := Option.none }
        { row := some row
          store := { store with subscriptions := store.subscriptions ++ [row] }
          cacheInvalidated := true }
      else ⟨Option.none, store, false⟩

/-! ## The webhook handler (main.py 197-475) -/

/-- A user-facing message sent by the webhook handler, carried
structurally (the exact numbers the source interpolates into the text). -/
inductive Notif
  | insufficient (amountReceived amountRequired shortfall : ℤ)
  | activationIssue
  | confirmed (endDate : ℤ) (overpayment : ℤ)
deriving DecidableEq

/-- Externally visible events of one handler run, in execution order. -/
inductive Ev
  | storeRead (table : String)
  | storeWrite (table : String)
  | markProcessed (invoiceId : String)
  | sendMessage (uid : ℤ) (msg : Notif)
  | logActivity (uid : ℤ) (action : String)
  | subUpsert (uid : ℤ)
deriving DecidableEq

/-- The body of the handler's HTTP response.  `internalError` is the
generic internal-error JSON of the blanket exception handler at
main.py 465-475, which catches the flask `abort()` exceptions raised
inside the handler's `try` block. -/
inductive RespBody
  | internalError
  | ignored
  | alreadyProcessed
  | errInsufficient (amount_paid amount_required : ℤ)
  | errSubscriptionFailed
  | success (invoice_id : String) (user_id : ℤ)
deriving DecidableEq

/-- HTTP status, body, store after the run, and the event trace. -/
structure HandlerResult where
  status : ℕ
  body : RespBody
  store : Store
  trace : List Ev
deriving DecidableEq

/-- Handler configuration: the webhook secret, the required total
subscription price, and the plan duration in days. -/
structure WebhookCfg where
  secret : String
  totalPrice : ℤ
  days : ℤ
deriving DecidableEq

/-- The parsed JSON body's two required fields (absent key gives none). -/
structure ParsedBody where
  eventType : Option String
  invoiceId : Option String
deriving DecidableEq

/-- main.py 242. -/
def relevantEvents : List String :=
  ["InvoiceSettled", "InvoiceProcessing", "InvoiceReceivedPayment"]

/-- main.py 253-255: first `payments` row whose `btcpay_invoice_id`
equals the (sanitized) invoice id. -/
def findPaymentByInvoice (ps : List PaymentRec) (inv : String) : Option PaymentRec :=
  (ps.filter (fun p => p.btcpay_invoice_id == inv)).head?

/-- Supabase PATCH on `payments` filtered by `eq_id`. -/
def patchPayment (ps : List PaymentRec) (pid : ℕ) (f : PaymentRec → PaymentRec) : List PaymentRec :=
  ps.map (fun p => if p.id = pid then f p else p)

/-- The PATCH data of main.py 289-296. -/
def setInsufficient (now : ℤ) (q : PaymentRec) : PaymentRec :=
  { q with status := "insufficient_amount", paid_at := some now, webhook_received_at := some now }

/-- The PATCH data of main.py 341-348. -/
def setPaid (now : ℤ) (q : PaymentRec) : PaymentRec :=
  { q with status := "paid", paid_at := some now, webhook_received_at := some now }

/-- main.py 279-329: the insufficient-amount terminal path.  The invoice
id is marked processed first, then the payment row is patched (ignoring
the write outcome), the user is told the exact shortfall
`totalPrice - amount`, the event is logged, and a 400 error body carrying
`amount_paid` and `amount_required` is returned. -/
def insufficientPath (cfg : WebhookCfg) (inv : String) (p : PaymentRec)
    (store : Store) (now : ℤ) (patchOk : Bool) : HandlerResult :=
  { status := 400
    body := .errInsufficient p.amount cfg.totalPrice
    store :=
      if patchOk then
        { store with payments := patchPayment store.payments p.id (setInsufficient now) }
      else store
    trace :=
      [.storeRead "payments",
       .markProcessed inv,
       .storeWrite "payments",
       .sendMessage p.user_id (.insufficient p.amount cfg.totalPrice (cfg.totalPrice - p.amount)),
       .logActivity p.user_id "payment_insufficient"] }

/-- main.py 331-463: the sufficient-amount path.  The invoice id is
marked processed, the payment row is patched to `paid` (a failed PATCH is
only logged, main.py 350-352), then the subscription is created or
extended; on failure a 500 with a distinct activity-log entry, on success
the payment is linked to the subscription, a confirmation naming the new
end date (and any overpayment above one cent) is sent, and 200 is
returned. -/
def sufficientPath (cfg : WebhookCfg) (inv : String) (p : PaymentRec)
    (store : Store) (now : ℤ) (patchOk subWriteOk : Bool) : HandlerResult :=
  let store1 :=
    if patchOk then
      { store with payments := patchPayment store.payments p.id (setPaid now) }
    else store
  let r := create_or_extend_subscription store1 p.user_id p.amount inv now cfg.days subWriteOk
  match r.row with
  | Option.none =>
    { status := 500
      body := .errSubscriptionFailed
      store := r.store
      trace :=
        [.storeRead "payments",
         .markProcessed inv,
         .storeWrite "payments",
         .subUpsert p.user_id,
         .sendMessage p.user_id .activationIssue,
         .logActivity p.user_id "subscription_activation_failed"] }
  | some row =>
    { status := 200
      body := .success inv p.user_id
      store :=
        if patchOk then
          { r.store with
              payments := patchPayment r.store.payments p.id
                (fun q => { q with subscription_id := some row.id }) }
        else r.store
      trace :=
        [.storeRead "payments",
         .markProcessed inv,
         .storeWrite "payments",
         .subUpsert p.user_id,
         .storeWrite "payments",
         .sendMessage p.user_id (.confirmed row.end_date
           (if 1 < p.amount - cfg.totalPrice then p.amount - cfg.totalPrice else 0)),
         .logActivity p.user_id "payment_received"] }

/-- main.py 261-329/331-463: validate the stored payment record, then
dispatch on the amount gate.  The `abort(400)` calls for a malformed
user id or amount (main.py 267/273) raise `HTTPException`, a subclass of
`Exception`, inside the handler's `try`, so the blanket
`except Exception` at main.py 465 converts them into the generic 500
internal-error response. -/
def processPayment (cfg : WebhookCfg) (inv : String) (p : PaymentRec)
    (store : Store) (now : ℤ) (patchOk subWriteOk : Bool) : HandlerResult :=
  if validTelegramIdInt p.user_id = false then
    ⟨500, .internalError, store, [.storeRead "payments"]⟩
  else if validate_amount p.amount = false then
    ⟨500, .internalError, store, [.storeRead "payments"]⟩
  else if p.amount < cfg.totalPrice then
    insufficientPath cfg inv p store now patchOk
  else
    sufficientPath cfg inv p store now patchOk subWriteOk

/-- main.py 236-259: sanitize the invoice id, discard irrelevant events,
short-circuit already-processed invoices, look the payment up.  The
`abort(404)` for a missing payment (main.py 259) is caught by the
handler's blanket `except Exception` (main.py 465) and surfaces as the
generic 500 internal-error response. -/
def handleEvent (ispr issp : Char → Bool) (cfg : WebhookCfg) (et invRaw : String)
    (alreadyProcessed : String → Bool) (store : Store) (now : ℤ)
    (patchOk subWriteOk : Bool) : HandlerResult :=
  let inv := sanitizeStr ispr issp invRaw 100
  if (et ∈ relevantEvents : Bool) = false then ⟨200, .ignored, store, []⟩
  else if alreadyProcessed inv then ⟨200, .alreadyProcessed, store, []⟩
  else
    match findPaymentByInvoice store.payments inv with
    | Option.none => ⟨500, .internalError, store, [.storeRead "payments"]⟩
    | some p => processPayment cfg inv p store now patchOk subWriteOk

/-- main.py 197-475, the `/webhook/btcpay` handler.  An unconfigured
secret calls `abort(503)` before anything else; a failed signature check
calls `abort(401)`; a non-dict body or missing/falsy `type`/`invoiceId`
calls `abort(400)` — all three before any store access.  Each `abort()`
raises an `HTTPException`, a subclass of `Exception`, inside the
handler's own `try` block, so the blanket `except Exception` at
main.py 465 catches it and every one of these rejections is returned as
the generic 500 internal-error response (the registered flask error
handlers never fire for them).  `alreadyProcessed` is the idempotency
ledger read; `patchOk`/`subWriteOk` are the infrastructure outcomes of
the payment PATCHes and the subscription write. -/
def btcpay_webhook (ispr issp : Char → Bool) (hmacF : String → List ℕ → String)
    (cfg : WebhookCfg) (rawBody : List ℕ) (sigHeader : String)
    (parsed : Option ParsedBody) (alreadyProcessed : String → Bool)
    (store : Store) (now : ℤ) (patchOk subWriteOk : Bool) : HandlerResult :=
  if cfg.secret = "" then ⟨500, .internalError, store, []⟩
  else if verify_btcpay_webhook hmacF cfg.secret rawBody sigHeader = false then
    ⟨500, .internalError, store, []⟩
  else
    match parsed with
    | Option.none => ⟨500, .internalError, store, []⟩
    | some body =>
      match body.eventType, body.invoiceId with
      | some et, some invRaw =>
        if et = "" || invRaw = "" then ⟨500, .internalError, store, []⟩
        else handleEvent ispr issp cfg et invRaw alreadyProcessed store now patchOk subWriteOk
      | _, _ => ⟨500, .internalError, store, []⟩

/-! ## Idempotency ledger, in-memory fallback (main.py 91-117) -/

/-- main.py 92. -/
def WEBHOOK_CACHE_SIZE : ℕ := 1000

/-- Adding to the fallback set.  The Python `set` is modelled as a
duplicate-free list in insertion order (oldest first). -/
def memAdd (s : List String) (x : String) : List String :=
  if x ∈ s then s else s ++ [x]

/-- main.py 104-117, the branch taken when the shared cache is
unavailable: add the invoice id to the in-process set, and if the size
now exceeds `WEBHOOK_CACHE_SIZE`, `set.pop()` removes one element —
an arbitrary member, which the step relation leaves nondeterministic. -/
inductive mark_webhook_processed_fallback : List String → String → List String → Prop
  | noEvict (s : List String) (x : String)
      (h : (memAdd s x).length ≤ WEBHOOK_CACHE_SIZE) :
      mark_webhook_processed_fallback s x (memAdd s x)
  | evict (s : List String) (x y : String)
      (h : WEBHOOK_CACHE_SIZE < (memAdd s x).length) (hy : y ∈ memAdd s x) :
      mark_webhook_processed_fallback s x ((memAdd s x).erase y)

/-- Whether a trace event mutates payment or subscription state (the
store writes and the subscription upsert; activity logging is the audit
trail, not a state mutation in the claims' sense). -/
def isMutation : Ev → Bool
  | .storeWrite _ => true
  | .subUpsert _ => true
  | _ => false

/-! ## Concrete fixtures for witnesses and counterexamples -/

/-- Character classifier instance: every character printable (true for
the ASCII letters and digits these fixtures use). -/
def allPrintable : Char → Bool := fun _ => true

/-- Character classifier instance: no character is whitespace (true for
the ASCII letters and digits these fixtures use). -/
def noSpace : Char → Bool := fun _ => false

/-- Character classifier instance: exactly the blank is whitespace. -/
def spaceOnly : Char → Bool := fun c => c == ' '

/-- A concrete stand-in for the HMAC-SHA256 hex digest function. -/
def exHmac : String → List ℕ → String := fun _ _ => "h"

/-- Concrete configuration: secret set, required total price 10.50
dollars (1050 cents), 30-day plan. -/
def exCfg : WebhookCfg := ⟨"sec", 1050, 30⟩

/-- A pending payment of 9.00 dollars against the 10.50 price
(underpayment). -/
def exPaymentLow : PaymentRec :=
  ⟨1, 42, "inv1", 900, "USD", "pending", Option.none, Option.none, Option.none⟩

/-- A pending payment of exactly the required 10.50 dollars. -/
def exPaymentOk : PaymentRec :=
  ⟨1, 42, "inv1", 1050, "USD", "pending", Option.none, Option.none, Option.none⟩

/-- A payment row whose stored user id is malformed (0 is outside the
valid id range). -/
def exPaymentBadUid : PaymentRec :=
  ⟨1, 0, "inv1", 900, "USD", "pending", Option.none, Option.none, Option.none⟩

/-- An active subscription row for user 42 ending at time 5000. -/
def exSub : SubRec :=
  ⟨7, 42, "active", "monthly", 1000, 100, 5000, 100, Option.none⟩

/-- A full fallback idempotency set: 1000 distinct invoice ids in
insertion order (the k-th entry is a string of k+1 letters). -/
def evictBase : List String :=
  (List.range 1000).map (fun n => String.mk (List.replicate (n + 1) 'a'))

/-! ## Helper lemmas -/

theorem head_dropWhile_false {α : Type} (p : α → Bool) (l : List α) (c : α)
    (h : (l.dropWhile p).head? = some c) : p c = false := by
  induction l with
  | nil => simp [List.dropWhile] at h
  | cons a l ih =>
    rw [List.dropWhile_cons] at h
    cases hp : p a with
    | true => exact ih (by simpa [hp] using h)
    | false =>
      rw [hp] at h
      simp only [Bool.false_eq_true, if_false, List.head?_cons, Option.some.injEq] at h
      subst h
      exact hp

theorem dropWhile_eq_self_of_head {α : Type} (p : α → Bool) (l : List α)
    (h : ∀ c, l.head? = some c → p c = false) : l.dropWhile p = l := by
  cases l with
  | nil => rfl
  | cons a l => simp [List.dropWhile_cons, h a rfl]

theorem getLast?_dropWhile {α : Type} (p : α → Bool) (l : List α)
    (h : l.dropWhile p ≠ []) : (l.dropWhile p).getLast? = l.getLast? := by
  induction l with
  | nil => simp [List.dropWhile] at h
  | cons a l ih =>
    rw [List.dropWhile_cons]
    by_cases hp : p a
    · rw [List.dropWhile_cons, if_pos hp] at h
      have hl : l ≠ [] := by
        intro he
        subst he
        simp [List.dropWhile] at h
      rw [if_pos hp, ih h]
      cases l with
      | nil => exact absurd rfl hl
      | cons b l => simp [List.getLast?_cons_cons]
    · rw [if_neg hp]

theorem mem_pyStrip {issp : Char → Bool} {l : List Char} {c : Char}
    (h : c ∈ pyStrip issp l) : c ∈ l := by
  unfold pyStrip at h
  rw [List.mem_reverse] at h
  have h2 : c ∈ (l.dropWhile issp).reverse := (List.dropWhile_sublist issp).mem h
  rw [List.mem_reverse] at h2
  exact (List.dropWhile_sublist issp).mem h2

theorem length_pyStrip_le (issp : Char → Bool) (l : List Char) :
    (pyStrip issp l).length ≤ l.length := by
  unfold pyStrip
  calc ((l.dropWhile issp).reverse.dropWhile issp).reverse.length
      = ((l.dropWhile issp).reverse.dropWhile issp).length := List.length_reverse _
    _ ≤ (l.dropWhile issp).reverse.length := (List.dropWhile_sublist issp).length_le
    _ = (l.dropWhile issp).length := List.length_reverse _
    _ ≤ l.length := (List.dropWhile_sublist issp).length_le

theorem pyStrip_head {issp : Char → Bool} {l : List Char} {c : Char}
    (h : (pyStrip issp l).head? = some c) : issp c = false := by
  unfold pyStrip at h
  rw [List.head?_reverse] at h
  have hne : (l.dropWhile issp).reverse.dropWhile issp ≠ [] := by
    intro he
    rw [he] at h
    simp at h
  rw [getLast?_dropWhile issp _ hne, List.getLast?_reverse] at h
  exact head_dropWhile_false issp l c h

theorem pyStrip_getLast {issp : Char → Bool} {l : List Char} {c : Char}
    (h : (pyStrip issp l).getLast? = some c) : issp c = false := by
  unfold pyStrip at h
  rw [List.getLast?_reverse] at h
  exact head_dropWhile_false issp _ c h

theorem pyStrip_eq_self {issp : Char → Bool} {l : List Char}
    (hh : ∀ c, l.head? = some c → issp c = false)
    (hl : ∀ c, l.getLast? = some c → issp c = false) : pyStrip issp l = l := by
  unfold pyStrip
  rw [dropWhile_eq_self_of_head issp l hh]
  rw [dropWhile_eq_self_of_head issp l.reverse
    (by intro c hc; rw [List.head?_reverse] at hc; exact hl c hc)]
  exact List.reverse_reverse l

theorem pySliceTo_sublist (l : List Char) (n : ℤ) :
    List.Sublist (pySliceTo l n) l := by
  unfold pySliceTo
  split
  · exact List.take_sublist _ _
  · exact List.take_sublist _ _

theorem length_pySliceTo_le (l : List Char) (n : ℤ) (hn : 0 ≤ n) :
    ((pySliceTo l n).length : ℤ) ≤ n := by
  unfold pySliceTo
  rw [if_pos hn]
  have : (l.take n.toNat).length ≤ n.toNat := by simp
  omega


theorem foldl_latestStep_mem (l : List SubRec) (acc : Option SubRec) (s : SubRec)
    (h : l.foldl latestStep acc = some s) : s ∈ l ∨ acc = some s := by
  induction l generalizing acc with
  | nil => exact Or.inr h
  | cons a l ih =>
    rw [List.foldl_cons] at h
    rcases ih (latestStep acc a) h with hm | he
    · exact Or.inl (List.mem_cons_of_mem a hm)
    · cases acc with
      | none =>
        simp only [latestStep, Option.some.injEq] at he
        exact Or.inl (he ▸ List.mem_cons_self a l)
      | some b =>
        simp only [latestStep] at he
        by_cases hlt : b.end_date < a.end_date
        · rw [if_pos hlt, Option.some.injEq] at he
          exact Or.inl (he ▸ List.mem_cons_self a l)
        · rw [if_neg hlt] at he
          exact Or.inr he

theorem pickLatest_mem (l : List SubRec) (s : SubRec)
    (h : pickLatest l = some s) : s ∈ l := by
  rcases foldl_latestStep_mem l Option.none s h with hm | he
  · exact hm
  · exact absurd he (by simp)

theorem findActiveLatest_mem (subs : List SubRec) (uid : ℤ) (s : SubRec)
    (h : findActiveLatest subs uid = some s) : s ∈ subs := by
  unfold findActiveLatest at h
  exact List.mem_of_mem_filter (pickLatest_mem _ s h)

theorem findPaymentByInvoice_mem (ps : List PaymentRec) (inv : String)
    (p : PaymentRec) (h : findPaymentByInvoice ps inv = some p) : p ∈ ps := by
  unfold findPaymentByInvoice at h
  have hm : p ∈ ps.filter (fun q => q.btcpay_invoice_id == inv) := by
    cases hl : ps.filter (fun q => q.btcpay_invoice_id == inv) with
    | nil => rw [hl] at h; simp at h
    | cons a l =>
      rw [hl] at h
      simp only [List.head?_cons, Option.some.injEq] at h
      exact h ▸ List.mem_cons_self a l
  exact List.mem_of_mem_filter hm

theorem create_preserves_payments (store : Store) (t : ℤ) (a : ℤ) (i : String)
    (now days : ℤ) (w : Bool) :
    (create_or_extend_subscription store t a i now days w).store.payments = store.payments := by
  unfold create_or_extend_subscription
  split
  · rfl
  · split
    · split
      · rfl
      · rfl
    · split
      · rfl
      · rfl

theorem create_row_isSome (store : Store) (t : ℤ) (a : ℤ) (i : String)
    (now days : ℤ) (h : validTelegramIdInt t = true) :
    ∃ row, (create_or_extend_subscription store t a i now days true).row = some row := by
  unfold create_or_extend_subscription
  rw [h]
  simp only [Bool.true_eq_false, if_false]
  split
  · exact ⟨_, rfl⟩
  · exact ⟨_, rfl⟩

theorem relevant_ne_empty (et : String) (h : et ∈ relevantEvents) : et ≠ "" := by
  have h2 : et = "InvoiceSettled" ∨ et = "InvoiceProcessing" ∨ et = "InvoiceReceivedPayment" := by
    simpa [relevantEvents] using h
  rcases h2 with rfl | rfl | rfl <;> decide

theorem memAdd_length_le (s : List String) (x : String) :
    (memAdd s x).length ≤ s.length + 1 := by
  unfold memAdd
  split
  · omega
  · simp

theorem btcpay_gate (ispr issp : Char → Bool) (hmacF : String → List ℕ → String)
    (cfg : WebhookCfg) (rawBody : List ℕ) (sigHeader : String) (et invRaw : String)
    (ap : String → Bool) (store : Store) (now : ℤ) (patchOk subWriteOk : Bool)
    (hs : cfg.secret ≠ "")
    (hv : verify_btcpay_webhook hmacF cfg.secret rawBody sigHeader = true)
    (het : et ≠ "") (hinv : invRaw ≠ "") :
    btcpay_webhook ispr issp hmacF cfg rawBody sigHeader (some ⟨some et, some invRaw⟩)
        ap store now patchOk subWriteOk
      = handleEvent ispr issp cfg et invRaw ap store now patchOk subWriteOk := by
  simp [btcpay_webhook, hs, hv, het, hinv]

theorem handleEvent_found (ispr issp : Char → Bool) (cfg : WebhookCfg) (et invRaw : String)
    (ap : String → Bool) (store : Store) (now : ℤ) (patchOk subWriteOk : Bool) (p : PaymentRec)
    (het : et ∈ relevantEvents)
    (hnp : ap (sanitizeStr ispr issp invRaw 100) = false)
    (hp : findPaymentByInvoice store.payments (sanitizeStr ispr issp invRaw 100) = some p) :
    handleEvent ispr issp cfg et invRaw ap store now patchOk subWriteOk
      = processPayment cfg (sanitizeStr ispr issp invRaw 100) p store now patchOk subWriteOk := by
  simp [handleEvent, het, hnp, hp]

theorem processPayment_insufficient (cfg : WebhookCfg) (inv : String) (p : PaymentRec)
    (store : Store) (now : ℤ) (patchOk subWriteOk : Bool)
    (htid : validTelegramIdInt p.user_id = true)
    (hamt : validate_amount p.amount = true)
    (hlt : p.amount < cfg.totalPrice) :
    processPayment cfg inv p store now patchOk subWriteOk
      = insufficientPath cfg inv p store now patchOk := by
  simp [processPayment, htid, hamt, hlt]

theorem processPayment_sufficient (cfg : WebhookCfg) (inv : String) (p : PaymentRec)
    (store : Store) (now : ℤ) (patchOk subWriteOk : Bool)
    (htid : validTelegramIdInt p.user_id = true)
    (hamt : validate_amount p.amount = true)
    (hge : ¬ p.amount < cfg.totalPrice) :
    processPayment cfg inv p store now patchOk subWriteOk
      = sufficientPath cfg inv p store now patchOk subWriteOk := by
  simp [processPayment, htid, hamt, hge]

/-! ## Claim theorems -/

/-- C4: a webhook request whose signature is missing or fails
verification against the shared secret — including the case of an
unconfigured secret — is rejected before any read or write on the
Subscription Store: the event trace is empty and the store unchanged.
The rejection itself surfaces as the generic 500 internal-error response,
because the `abort(503)`/`abort(401)` raised on these paths is swallowed
by the handler's blanket `except Exception` (main.py 465). -/
theorem c4_signature_gate_blocks_store_access
    (ispr issp : Char → Bool) (hmacF : String → List ℕ → String)
    (cfg : WebhookCfg) (rawBody : List ℕ) (sigHeader : String)
    (parsed : Option ParsedBody) (ap : String → Bool) (store : Store) (now : ℤ)
    (patchOk subWriteOk : Bool)
    (h : cfg.secret = "" ∨ verify_btcpay_webhook hmacF cfg.secret rawBody sigHeader = false)
    (r : HandlerResult)
    (hr : btcpay_webhook ispr issp hmacF cfg rawBody sigHeader parsed ap store now
        patchOk subWriteOk = r) :
    r.trace = [] ∧ r.store = store ∧ r.status = 500 ∧ r.body = .internalError := by
  subst hr
  rcases h with h | h
  · simp [btcpay_webhook, h]
  · by_cases hs : cfg.secret = ""
    · simp [btcpay_webhook, hs]
    · simp [btcpay_webhook, hs, h]

/-- C4 witness: a concrete run with a wrong signature is rejected with no
store access. -/
theorem c4_signature_gate_blocks_store_access_witness :
    (btcpay_webhook allPrintable noSpace exHmac exCfg [] "bad"
        (some ⟨some "InvoiceSettled", some "inv1"⟩) (fun _ => false)
        ⟨[exPaymentLow], []⟩ 0 true true).trace = [] ∧
    (btcpay_webhook allPrintable noSpace exHmac exCfg [] "bad"
        (some ⟨some "InvoiceSettled", some "inv1"⟩) (fun _ => false)
        ⟨[exPaymentLow], []⟩ 0 true true).store = ⟨[exPaymentLow], []⟩ ∧
    (btcpay_webhook allPrintable noSpace exHmac exCfg [] "bad"
        (some ⟨some "InvoiceSettled", some "inv1"⟩) (fun _ => false)
        ⟨[exPaymentLow], []⟩ 0 true true).status = 500 ∧
    (btcpay_webhook allPrintable noSpace exHmac exCfg [] "bad"
        (some ⟨some "InvoiceSettled", some "inv1"⟩) (fun _ => false)
        ⟨[exPaymentLow], []⟩ 0 true true).body = .internalError :=
  c4_signature_gate_blocks_store_access allPrintable noSpace exHmac exCfg [] "bad"
    (some ⟨some "InvoiceSettled", some "inv1"⟩) (fun _ => false)
    ⟨[exPaymentLow], []⟩ 0 true true (Or.inr (by decide)) _ rfl

/-- C6: `verify_btcpay_webhook` returns false whenever the secret is
unconfigured or the signature header is empty, and otherwise returns true
exactly when the supplied signature, after stripping an optional
`sha256=` tag, equals the HMAC-SHA256 hex digest of the raw payload under
the secret.  (The digest itself and the constant-time character of
`hmac.compare_digest` are abstracted; see the definition.) -/
theorem c6_verify_btcpay_webhook_spec
    (hmacF : String → List ℕ → String) (secret : String) (payload : List ℕ)
    (signature : String) :
    ((secret = "" ∨ signature = "") →
      verify_btcpay_webhook hmacF secret payload signature = false) ∧
    (secret ≠ "" → signature ≠ "" →
      (verify_btcpay_webhook hmacF secret payload signature = true ↔
        dropSigScheme signature = hmacF secret payload)) := by
  constructor
  · intro h
    rcases h with h | h
    · simp [verify_btcpay_webhook, h]
    · simp [verify_btcpay_webhook, h]
  · intro hs hsig
    simp [verify_btcpay_webhook, hs, hsig]

/-- C6 witness: concrete evaluations covering the unconfigured-secret,
empty-signature, prefixed-match and mismatch cases. -/
theorem c6_verify_btcpay_webhook_spec_witness :
    verify_btcpay_webhook exHmac "" [] "h" = false ∧
    verify_btcpay_webhook exHmac "sec" [] "" = false ∧
    verify_btcpay_webhook exHmac "sec" [] "sha256=h" = true ∧
    verify_btcpay_webhook exHmac "sec" [] "nope" = false :=
  ⟨(c6_verify_btcpay_webhook_spec exHmac "" [] "h").1 (Or.inl rfl),
   (c6_verify_btcpay_webhook_spec exHmac "sec" [] "").1 (Or.inr rfl),
   ((c6_verify_btcpay_webhook_spec exHmac "sec" [] "sha256=h").2 (by decide)
      (by decide)).mpr (by decide),
   by
    have h := (c6_verify_btcpay_webhook_spec exHmac "sec" [] "nope").2 (by decide) (by decide)
    rcases hb : verify_btcpay_webhook exHmac "sec" [] "nope" with _ | _
    · rfl
    · exact absurd (h.mp hb) (by decide)⟩

/-- C7 counterexample: `validate_telegram_id` as implemented returns True
on inputs that are not integers — the string "5" and the boolean True
both convert via Python `int()` and pass the bounds check — and it can
raise: an infinite float escapes the `except (ValueError, TypeError)`
clause as an `OverflowError`.  This refutes the claim that the function
returns True only for integer inputs and never raises. -/
theorem c7_validate_telegram_id_counterexample :
    validate_telegram_id (.str "5") = .ok true ∧
    validate_telegram_id (.bool true) = .ok true ∧
    validate_telegram_id .floatInf = .error .overflowError :=
  ⟨rfl, rfl, rfl⟩

/-- C7 amended: `validate_telegram_id` returns `.ok true` iff Python
`int()` conversion of the input succeeds with a value strictly between 0
and 10^15 — so besides in-range integers it also accepts numeric strings,
booleans, and finite floats (truncated toward zero); it returns
`.ok false` when conversion fails with `ValueError` or `TypeError`
(non-numeric strings, NaN, `None`) or when the converted value is out of
range, and it raises `OverflowError` on an infinite float instead of
returning. -/
theorem c7_validate_telegram_id_amended :
    (∀ n : ℤ, validate_telegram_id (.int n)
      = .ok (decide (0 < n) && decide (n < 10 ^ 15))) ∧
    (∀ b : Bool, validate_telegram_id (.bool b) = .ok b) ∧
    (∀ s : String, validate_telegram_id (.str s)
      = .ok (match parseIntLit s with
             | some t => decide (0 < t) && decide (t < 10 ^ 15)
             | Option.none => false)) ∧
    (∀ q : ℚ, validate_telegram_id (.float q)
      = .ok (decide (0 < pyTruncFloat q) && decide (pyTruncFloat q < 10 ^ 15))) ∧
    validate_telegram_id .none = .ok false ∧
    validate_telegram_id .floatNaN = .ok false ∧
    validate_telegram_id .floatInf = .error .overflowError ∧
    validate_telegram_id .floatNegInf = .error .overflowError := by
  refine ⟨fun n => rfl, fun b => ?_, fun s => ?_, fun q => rfl, rfl, rfl, rfl, rfl⟩
  · cases b
    · rfl
    · rfl
  · cases hs : parseIntLit s
    · simp only [validate_telegram_id, pyInt, hs]
    · simp only [validate_telegram_id, pyInt, hs]

/-- C10 counterexample: with a negative `max_length` — a value the Python
signature admits — `sanitize_string` follows Python slice semantics and
returns a string longer than `max_length`, and applying it twice with the
same `max_length` changes the result again, so neither the length bound
nor idempotence holds for every `max_length` as claimed. -/
theorem c10_sanitize_string_counterexample :
    sanitize_string allPrintable noSpace (.str "ab") (-1) = "a" ∧
    ¬ (((sanitize_string allPrintable noSpace (.str "ab") (-1)).length : ℤ) ≤ -1) ∧
    sanitize_string allPrintable noSpace
        (.str (sanitize_string allPrintable noSpace (.str "ab") (-1))) (-1)
      ≠ sanitize_string allPrintable noSpace (.str "ab") (-1) := by
  refine ⟨rfl, by decide, by decide⟩

/-- C10 amended: `sanitize_string` is total; a non-string value yields
the empty string, and for every string input and every NONNEGATIVE
`max_length` the result contains only printable-or-whitespace characters,
has length at most `max_length`, carries no leading or trailing
whitespace, and sanitizing an already-sanitized string with the same
`max_length` returns it unchanged.  (For a negative `max_length` the
function follows Python slice semantics instead, which breaks the length
bound and idempotence — see the counterexample.) -/
theorem c10_sanitize_string_amended (ispr issp : Char → Bool) (v : PyVal)
    (s : String) (n : ℤ) (hn : 0 ≤ n) :
    ((∀ t : String, v ≠ .str t) → sanitize_string ispr issp v n = "") ∧
    (∀ c, c ∈ (sanitize_string ispr issp (.str s) n).toList →
      (ispr c || issp c) = true) ∧
    (((sanitize_string ispr issp (.str s) n).length : ℤ) ≤ n) ∧
    (∀ c, (sanitize_string ispr issp (.str s) n).toList.head? = some c →
      issp c = false) ∧
    (∀ c, (sanitize_string ispr issp (.str s) n).toList.getLast? = some c →
      issp c = false) ∧
    sanitize_string ispr issp (.str (sanitize_string ispr issp (.str s) n)) n
      = sanitize_string ispr issp (.str s) n := by
  have hchars : ∀ c ∈ pyStrip issp
      (pySliceTo (s.toList.filter (fun c => ispr c || issp c)) n),
      (ispr c || issp c) = true := by
    intro c hc
    have h1 := mem_pyStrip hc
    have h2 := (pySliceTo_sublist _ n).mem h1
    exact (List.mem_filter.mp h2).2
  have hlen : (pyStrip issp
      (pySliceTo (s.toList.filter (fun c => ispr c || issp c)) n)).length ≤ n.toNat := by
    have h1 := length_pyStrip_le issp
      (pySliceTo (s.toList.filter (fun c => ispr c || issp c)) n)
    have h2 : (pySliceTo (s.toList.filter (fun c => ispr c || issp c)) n).length
        ≤ n.toNat := by
      unfold pySliceTo
      rw [if_pos hn]
      simp
    omega
  refine ⟨?_, ?_, ?_, ?_, ?_, ?_⟩
  · intro hv
    cases v with
    | int n => rfl
    | bool b => rfl
    | str t => exact absurd rfl (hv t)
    | float q => rfl
    | floatInf => rfl
    | floatNegInf => rfl
    | floatNaN => rfl
    | none => rfl
  · intro c hc
    exact hchars c hc
  · show ((sanitizeStr ispr issp s n).length : ℤ) ≤ n
    have : (sanitizeStr ispr issp s n).length = (pyStrip issp
        (pySliceTo (s.toList.filter (fun c => ispr c || issp c)) n)).length := rfl
    rw [this]
    omega
  · intro c hc
    exact pyStrip_head hc
  · intro c hc
    exact pyStrip_getLast hc
  · show sanitizeStr ispr issp (sanitizeStr ispr issp s n) n = sanitizeStr ispr issp s n
    unfold sanitizeStr
    have htl : (String.mk (pyStrip issp
        (pySliceTo (s.toList.filter (fun c => ispr c || issp c)) n))).toList
        = pyStrip issp (pySliceTo (s.toList.filter (fun c => ispr c || issp c)) n) := rfl
    rw [htl]
    rw [List.filter_eq_self.mpr hchars]
    have hslice : pySliceTo (pyStrip issp
        (pySliceTo (s.toList.filter (fun c => ispr c || issp c)) n)) n
        = pyStrip issp (pySliceTo (s.toList.filter (fun c => ispr c || issp c)) n) := by
      unfold pySliceTo
      rw [if_pos hn]
      exact List.take_of_length_le hlen
    rw [hslice]
    rw [pyStrip_eq_self (fun c hc => pyStrip_head hc) (fun c hc => pyStrip_getLast hc)]

/-- C10 witness: a concrete sanitization at nonnegative `max_length` 3
satisfies the bound and is a fixed point of a second pass; a non-string
input yields the empty string. -/
theorem c10_sanitize_string_amended_witness :
    (0 : ℤ) ≤ 3 ∧
    ((sanitize_string allPrintable spaceOnly (.str " ab ") 3).length : ℤ) ≤ 3 ∧
    sanitize_string allPrintable spaceOnly
        (.str (sanitize_string allPrintable spaceOnly (.str " ab ") 3)) 3
      = sanitize_string allPrintable spaceOnly (.str " ab ") 3 ∧
    sanitize_string allPrintable spaceOnly (.int 7) 3 = "" :=
  ⟨by decide,
   (c10_sanitize_string_amended allPrintable spaceOnly (.int 7) " ab " 3 (by decide)).2.2.1,
   (c10_sanitize_string_amended allPrintable spaceOnly (.int 7) " ab " 3
      (by decide)).2.2.2.2.2,
   (c10_sanitize_string_amended allPrintable spaceOnly (.int 7) " ab " 3 (by decide)).1
     (fun t h => PyVal.noConfusion h)⟩

/-- C1: a verified, relevant, not-yet-processed notification resolving to
a stored payment with valid user id and amount, whose amount is strictly
below the required total price, yields: HTTP 400 with the
`insufficient_amount` error body carrying `amount_paid` and
`amount_required`; the idempotency marker set for the invoice id; a user
notification stating the exact shortfall (required price minus amount
paid); the stored payment's status updated to `insufficient_amount`; and
no subscription row created or extended — `create_or_extend_subscription`
is never invoked. -/
theorem c1_underpayment_blocks_activation
    (ispr issp : Char → Bool) (hmacF : String → List ℕ → String)
    (cfg : WebhookCfg) (rawBody : List ℕ) (sigHeader : String) (et invRaw : String)
    (ap : String → Bool) (store : Store) (now : ℤ) (subWriteOk : Bool) (p : PaymentRec)
    (hs : cfg.secret ≠ "")
    (hv : verify_btcpay_webhook hmacF cfg.secret rawBody sigHeader = true)
    (het : et ∈ relevantEvents) (hinv : invRaw ≠ "")
    (hnp : ap (sanitizeStr ispr issp invRaw 100) = false)
    (hp : findPaymentByInvoice store.payments (sanitizeStr ispr issp invRaw 100) = some p)
    (htid : validTelegramIdInt p.user_id = true)
    (hamt : validate_amount p.amount = true)
    (hlt : p.amount < cfg.totalPrice)
    (r : HandlerResult)
    (hr : btcpay_webhook ispr issp hmacF cfg rawBody sigHeader
        (some ⟨some et, some invRaw⟩) ap store now true subWriteOk = r) :
    r.status = 400 ∧
    r.body = .errInsufficient p.amount cfg.totalPrice ∧
    Ev.markProcessed (sanitizeStr ispr issp invRaw 100) ∈ r.trace ∧
    Ev.sendMessage p.user_id
        (.insufficient p.amount cfg.totalPrice (cfg.totalPrice - p.amount)) ∈ r.trace ∧
    r.store.subscriptions = store.subscriptions ∧
    (∃ q ∈ r.store.payments, q.id = p.id ∧ q.status = "insufficient_amount") ∧
    (∀ q ∈ r.store.payments, q.id = p.id → q.status = "insufficient_amount") ∧
    (∀ u, Ev.subUpsert u ∉ r.trace) := by
  subst hr
  rw [btcpay_gate ispr issp hmacF cfg rawBody sigHeader et invRaw ap store now true
      subWriteOk hs hv (relevant_ne_empty et het) hinv]
  rw [handleEvent_found ispr issp cfg et invRaw ap store now true subWriteOk p het hnp hp]
  rw [processPayment_insufficient cfg _ p store now true subWriteOk htid hamt hlt]
  have hmem : p ∈ store.payments := findPaymentByInvoice_mem _ _ p hp
  refine ⟨rfl, rfl, by simp [insufficientPath], by simp [insufficientPath], rfl, ?_, ?_, ?_⟩
  · refine ⟨setInsufficient now p, ?_, rfl, rfl⟩
    show setInsufficient now p ∈ patchPayment store.payments p.id (setInsufficient now)
    unfold patchPayment
    have h2 := List.mem_map_of_mem
      (fun x => if x.id = p.id then setInsufficient now x else x) hmem
    simpa using h2
  · intro q hq hid
    have hq' : q ∈ patchPayment store.payments p.id (setInsufficient now) := hq
    unfold patchPayment at hq'
    obtain ⟨x, hx, hfx⟩ := List.mem_map.mp hq'
    by_cases hxid : x.id = p.id
    · rw [if_pos hxid] at hfx
      rw [← hfx]
      rfl
    · rw [if_neg hxid] at hfx
      rw [← hfx] at hid
      exact absurd hid hxid
  · intro u hu
    simp [insufficientPath] at hu

/-- C1 witness: the concrete 9.00-dollar payment against the 10.50
requirement is blocked with the exact 1.50 shortfall reported. -/
theorem c1_underpayment_blocks_activation_witness :
    (btcpay_webhook allPrintable noSpace exHmac exCfg [] "h"
        (some ⟨some "InvoiceSettled", some "inv1"⟩) (fun _ => false)
        ⟨[exPaymentLow], []⟩ 0 true true).status = 400 ∧
    (btcpay_webhook allPrintable noSpace exHmac exCfg [] "h"
        (some ⟨some "InvoiceSettled", some "inv1"⟩) (fun _ => false)
        ⟨[exPaymentLow], []⟩ 0 true true).body = .errInsufficient 900 1050 ∧
    Ev.markProcessed (sanitizeStr allPrintable noSpace "inv1" 100) ∈
      (btcpay_webhook allPrintable noSpace exHmac exCfg [] "h"
        (some ⟨some "InvoiceSettled", some "inv1"⟩) (fun _ => false)
        ⟨[exPaymentLow], []⟩ 0 true true).trace ∧
    Ev.sendMessage 42 (.insufficient 900 1050 150) ∈
      (btcpay_webhook allPrintable noSpace exHmac exCfg [] "h"
        (some ⟨some "InvoiceSettled", some "inv1"⟩) (fun _ => false)
        ⟨[exPaymentLow], []⟩ 0 true true).trace ∧
    (btcpay_webhook allPrintable noSpace exHmac exCfg [] "h"
        (some ⟨some "InvoiceSettled", some "inv1"⟩) (fun _ => false)
        ⟨[exPaymentLow], []⟩ 0 true true).store.subscriptions = [] := by
  have h := c1_underpayment_blocks_activation allPrintable noSpace exHmac exCfg [] "h"
    "InvoiceSettled" "inv1" (fun _ => false) ⟨[exPaymentLow], []⟩ 0 true exPaymentLow
    (by decide) (by decide) (by decide) (by decide) rfl (by decide) (by decide)
    (by decide) (by decide) _ rfl
  exact ⟨h.1, h.2.1, h.2.2.1, h.2.2.2.1, h.2.2.2.2.1⟩

/-- C3 counterexample: on the concrete insufficient-amount terminal run
the trace decomposes as a prefix, the idempotency marker, and a suffix
that still contains the payment-status store write — the marker is set
BEFORE the path's mutations, not as the very last step after them, so the
claim that the marker is set only after all payment-status updates and
subscription mutations is false. -/
theorem c3_mark_last_counterexample :
    (btcpay_webhook allPrintable noSpace exHmac exCfg [] "h"
        (some ⟨some "InvoiceSettled", some "inv1"⟩) (fun _ => false)
        ⟨[exPaymentLow], []⟩ 0 true true).trace =
      [Ev.storeRead "payments"] ++ Ev.markProcessed "inv1" ::
        [Ev.storeWrite "payments",
         Ev.sendMessage 42 (.insufficient 900 1050 150),
         Ev.logActivity 42 "payment_insufficient"] ∧
    Ev.storeWrite "payments" ∈
      [Ev.storeWrite "payments",
       Ev.sendMessage 42 (Notif.insufficient 900 1050 150),
       Ev.logActivity 42 "payment_insufficient"] ∧
    isMutation (Ev.storeWrite "payments") = true := by
  refine ⟨by decide, by decide, rfl⟩

/-- C3 amended: on every terminal path of the handler (insufficient
amount, subscription-write failure, and success) the invoice id IS marked
processed, but as the FIRST step after the payment lookup — before the
payment-status update and before any subscription mutation, not after
them: the trace always starts with the store read followed immediately by
the marker event. -/
theorem c3_mark_first_on_terminal_paths
    (ispr issp : Char → Bool) (hmacF : String → List ℕ → String)
    (cfg : WebhookCfg) (rawBody : List ℕ) (sigHeader : String) (et invRaw : String)
    (ap : String → Bool) (store : Store) (now : ℤ) (patchOk subWriteOk : Bool)
    (p : PaymentRec)
    (hs : cfg.secret ≠ "")
    (hv : verify_btcpay_webhook hmacF cfg.secret rawBody sigHeader = true)
    (het : et ∈ relevantEvents) (hinv : invRaw ≠ "")
    (hnp : ap (sanitizeStr ispr issp invRaw 100) = false)
    (hp : findPaymentByInvoice store.payments (sanitizeStr ispr issp invRaw 100) = some p)
    (htid : validTelegramIdInt p.user_id = true)
    (hamt : validate_amount p.amount = true)
    (r : HandlerResult)
    (hr : btcpay_webhook ispr issp hmacF cfg rawBody sigHeader
        (some ⟨some et, some invRaw⟩) ap store now patchOk subWriteOk = r) :
    ∃ rest, r.trace = Ev.storeRead "payments" ::
      Ev.markProcessed (sanitizeStr ispr issp invRaw 100) :: rest := by
  subst hr
  rw [btcpay_gate ispr issp hmacF cfg rawBody sigHeader et invRaw ap store now patchOk
      subWriteOk hs hv (relevant_ne_empty et het) hinv]
  rw [handleEvent_found ispr issp cfg et invRaw ap store now patchOk subWriteOk p het hnp hp]
  by_cases hlt : p.amount < cfg.totalPrice
  · rw [processPayment_insufficient cfg _ p store now patchOk subWriteOk htid hamt hlt]
    exact ⟨_, rfl⟩
  · rw [processPayment_sufficient cfg _ p store now patchOk subWriteOk htid hamt hlt]
    unfold sufficientPath
    dsimp only
    cases hrow : (create_or_extend_subscription
        (if patchOk then
          { store with payments := patchPayment store.payments p.id (setPaid now) }
        else store) p.user_id p.amount (sanitizeStr ispr issp invRaw 100) now cfg.days
        subWriteOk).row with
    | none => exact ⟨_, rfl⟩
    | some row => exact ⟨_, rfl⟩

/-- C3 amended witness: the concrete underpayment run's trace starts with
the lookup and then the marker. -/
theorem c3_mark_first_on_terminal_paths_witness :
    ∃ rest, (btcpay_webhook allPrintable noSpace exHmac exCfg [] "h"
        (some ⟨some "InvoiceSettled", some "inv1"⟩) (fun _ => false)
        ⟨[exPaymentLow], []⟩ 0 true true).trace =
      Ev.storeRead "payments" ::
        Ev.markProcessed (sanitizeStr allPrintable noSpace "inv1" 100) :: rest :=
  c3_mark_first_on_terminal_paths allPrintable noSpace exHmac exCfg [] "h"
    "InvoiceSettled" "inv1" (fun _ => false) ⟨[exPaymentLow], []⟩ 0 true true exPaymentLow
    (by decide) (by decide) (by decide) (by decide) rfl (by decide) (by decide)
    (by decide) _ rfl

/-- C5 counterexample: a stored payment whose user id is malformed is
rejected, but not as the claim states it: the `abort(400)` is caught by
the handler's blanket `except Exception` (main.py 465), so the response
is the generic 500 internal error rather than an HTTP 400, and the run's
full event trace is just the payment lookup — in particular it contains
no `markProcessed` event, so the invoice id is NOT marked processed in
the Idempotency Ledger either, contrary to the claim. -/
theorem c5_invalid_record_counterexample :
    (btcpay_webhook allPrintable noSpace exHmac exCfg [] "h"
        (some ⟨some "InvoiceSettled", some "inv1"⟩) (fun _ => false)
        ⟨[exPaymentBadUid], []⟩ 0 true true).status = 500 ∧
    (btcpay_webhook allPrintable noSpace exHmac exCfg [] "h"
        (some ⟨some "InvoiceSettled", some "inv1"⟩) (fun _ => false)
        ⟨[exPaymentBadUid], []⟩ 0 true true).body = .internalError ∧
    (btcpay_webhook allPrintable noSpace exHmac exCfg [] "h"
        (some ⟨some "InvoiceSettled", some "inv1"⟩) (fun _ => false)
        ⟨[exPaymentBadUid], []⟩ 0 true true).trace = [Ev.storeRead "payments"] ∧
    Ev.markProcessed "inv1" ∉
      (btcpay_webhook allPrintable noSpace exHmac exCfg [] "h"
        (some ⟨some "InvoiceSettled", some "inv1"⟩) (fun _ => false)
        ⟨[exPaymentBadUid], []⟩ 0 true true).trace := by
  refine ⟨by decide, by decide, by decide, by decide⟩

/-- C5 amended: when the stored payment record for a resolvable invoice
has a malformed user id, or a well-formed user id but a malformed amount,
the handler rejects the notification without processing the payment — no
status transition, no subscription mutation, an unchanged store — but
the rejection surfaces as the generic 500 internal-error response (the
`abort(400)` of main.py 267/273 is swallowed by the blanket
`except Exception` at main.py 465), and the invoice id is NOT marked
processed: the only event of the run is the payment lookup, so
redeliveries of the same notification will retry the invalid record. -/
theorem c5_invalid_record_aborts_unmarked
    (ispr issp : Char → Bool) (hmacF : String → List ℕ → String)
    (cfg : WebhookCfg) (rawBody : List ℕ) (sigHeader : String) (et invRaw : String)
    (ap : String → Bool) (store : Store) (now : ℤ) (patchOk subWriteOk : Bool)
    (p : PaymentRec)
    (hs : cfg.secret ≠ "")
    (hv : verify_btcpay_webhook hmacF cfg.secret rawBody sigHeader = true)
    (het : et ∈ relevantEvents) (hinv : invRaw ≠ "")
    (hnp : ap (sanitizeStr ispr issp invRaw 100) = false)
    (hp : findPaymentByInvoice store.payments (sanitizeStr ispr issp invRaw 100) = some p)
    (hbad : validTelegramIdInt p.user_id = false ∨
      (validTelegramIdInt p.user_id = true ∧ validate_amount p.amount = false))
    (r : HandlerResult)
    (hr : btcpay_webhook ispr issp hmacF cfg rawBody sigHeader
        (some ⟨some et, some invRaw⟩) ap store now patchOk subWriteOk = r) :
    r.status = 500 ∧ r.body = .internalError ∧ r.store = store ∧
    r.trace = [Ev.storeRead "payments"] := by
  subst hr
  rw [btcpay_gate ispr issp hmacF cfg rawBody sigHeader et invRaw ap store now patchOk
      subWriteOk hs hv (relevant_ne_empty et het) hinv]
  rw [handleEvent_found ispr issp cfg et invRaw ap store now patchOk subWriteOk p het hnp hp]
  rcases hbad with htid | ⟨htid, hamt⟩
  · simp [processPayment, htid]
  · simp [processPayment, htid, hamt]

/-- C5 amended witness: the concrete malformed-user-id run is rejected
as a generic 500 internal error with an unchanged store and only the
lookup in its trace. -/
theorem c5_invalid_record_aborts_unmarked_witness :
    (btcpay_webhook allPrintable noSpace exHmac exCfg [] "h"
        (some ⟨some "InvoiceSettled", some "inv1"⟩) (fun _ => false)
        ⟨[exPaymentBadUid], []⟩ 0 true true).status = 500 ∧
    (btcpay_webhook allPrintable noSpace exHmac exCfg [] "h"
        (some ⟨some "InvoiceSettled", some "inv1"⟩) (fun _ => false)
        ⟨[exPaymentBadUid], []⟩ 0 true true).body = .internalError ∧
    (btcpay_webhook allPrintable noSpace exHmac exCfg [] "h"
        (some ⟨some "InvoiceSettled", some "inv1"⟩) (fun _ => false)
        ⟨[exPaymentBadUid], []⟩ 0 true true).store = ⟨[exPaymentBadUid], []⟩ ∧
    (btcpay_webhook allPrintable noSpace exHmac exCfg [] "h"
        (some ⟨some "InvoiceSettled", some "inv1"⟩) (fun _ => false)
        ⟨[exPaymentBadUid], []⟩ 0 true true).trace = [Ev.storeRead "payments"] :=
  c5_invalid_record_aborts_unmarked allPrintable noSpace exHmac exCfg [] "h"
    "InvoiceSettled" "inv1" (fun _ => false) ⟨[exPaymentBadUid], []⟩ 0 true true
    exPaymentBadUid (by decide) (by decide) (by decide) (by decide) rfl (by decide)
    (Or.inl (by decide)) _ rfl

/-- C9: on the sufficient-amount path, a failed payment-status PATCH
(`patchOk = false`) does not abort processing — the handler still invokes
the subscription upsert and, when that write succeeds, returns HTTP 200
with the success body, while the payments table is left untouched: the
found payment row is still present with its prior `pending` status even
though a subscription was created or extended. -/
theorem c9_patch_failure_does_not_abort
    (ispr issp : Char → Bool) (hmacF : String → List ℕ → String)
    (cfg : WebhookCfg) (rawBody : List ℕ) (sigHeader : String) (et invRaw : String)
    (ap : String → Bool) (store : Store) (now : ℤ) (p : PaymentRec)
    (hs : cfg.secret ≠ "")
    (hv : verify_btcpay_webhook hmacF cfg.secret rawBody sigHeader = true)
    (het : et ∈ relevantEvents) (hinv : invRaw ≠ "")
    (hnp : ap (sanitizeStr ispr issp invRaw 100) = false)
    (hp : findPaymentByInvoice store.payments (sanitizeStr ispr issp invRaw 100) = some p)
    (htid : validTelegramIdInt p.user_id = true)
    (hamt : validate_amount p.amount = true)
    (hge : cfg.totalPrice ≤ p.amount)
    (hpend : p.status = "pending")
    (r : HandlerResult)
    (hr : btcpay_webhook ispr issp hmacF cfg rawBody sigHeader
        (some ⟨some et, some invRaw⟩) ap store now false true = r) :
    r.status = 200 ∧
    r.body = .success (sanitizeStr ispr issp invRaw 100) p.user_id ∧
    Ev.subUpsert p.user_id ∈ r.trace ∧
    r.store.payments = store.payments ∧
    p ∈ r.store.payments ∧
    p.status = "pending" := by
  subst hr
  rw [btcpay_gate ispr issp hmacF cfg rawBody sigHeader et invRaw ap store now false
      true hs hv (relevant_ne_empty et het) hinv]
  rw [handleEvent_found ispr issp cfg et invRaw ap store now false true p het hnp hp]
  rw [processPayment_sufficient cfg _ p store now false true htid hamt (not_lt.mpr hge)]
  unfold sufficientPath
  dsimp only
  rw [if_neg (by simp : ¬ (false = true))]
  obtain ⟨row, hrow⟩ := create_row_isSome store p.user_id p.amount
    (sanitizeStr ispr issp invRaw 100) now cfg.days htid
  rw [hrow]
  have hpay := create_preserves_payments store p.user_id p.amount
    (sanitizeStr ispr issp invRaw 100) now cfg.days true
  have hmem : p ∈ store.payments := findPaymentByInvoice_mem _ _ p hp
  refine ⟨rfl, rfl, by simp, ?_, ?_, hpend⟩
  · simp only [Bool.false_eq_true, if_false]
    exact hpay
  · simp only [Bool.false_eq_true, if_false]
    rw [hpay]
    exact hmem

/-- C9 witness: a concrete exact-price payment whose status PATCH fails
still activates the subscription and returns 200 with the payment row
left pending. -/
theorem c9_patch_failure_does_not_abort_witness :
    (btcpay_webhook allPrintable noSpace exHmac exCfg [] "h"
        (some ⟨some "InvoiceSettled", some "inv1"⟩) (fun _ => false)
        ⟨[exPaymentOk], []⟩ 0 false true).status = 200 ∧
    (btcpay_webhook allPrintable noSpace exHmac exCfg [] "h"
        (some ⟨some "InvoiceSettled", some "inv1"⟩) (fun _ => false)
        ⟨[exPaymentOk], []⟩ 0 false true).store.payments = [exPaymentOk] ∧
    Ev.subUpsert 42 ∈
      (btcpay_webhook allPrintable noSpace exHmac exCfg [] "h"
        (some ⟨some "InvoiceSettled", some "inv1"⟩) (fun _ => false)
        ⟨[exPaymentOk], []⟩ 0 false true).trace ∧
    exPaymentOk.status = "pending" := by
  have h := c9_patch_failure_does_not_abort allPrintable noSpace exHmac exCfg [] "h"
    "InvoiceSettled" "inv1" (fun _ => false) ⟨[exPaymentOk], []⟩ 0 exPaymentOk
    (by decide) (by decide) (by decide) (by decide) rfl (by decide) (by decide)
    (by decide) (by decide) rfl _ rfl
  exact ⟨h.1, h.2.2.2.1, h.2.2.1, h.2.2.2.2.2⟩

/-- C2: for a valid telegram id, `create_or_extend_subscription` (with a
nonnegative configured plan duration): when an active subscription row is
found, returns and persists that row with
`end_date = max(current_end, now) + duration`, a refreshed updated-at and
an unchanged start_date — hence the end date never moves backward; when
none is found, creates a row with `start_date = now`,
`end_date = now + duration`, status `active` and `amount_paid` equal to
the paid amount; on either successful path the cached subscription
snapshot is invalidated; and when the underlying write does not confirm
it returns the failure signal `None` instead of a silent success. -/
theorem c2_create_or_extend_subscription_spec (store : Store) (uid : ℤ)
    (amount : ℤ) (invId : String) (now days : ℤ) (writeOk : Bool)
    (htid : validTelegramIdInt uid = true) (hdays : 0 ≤ days) :
    (∀ sub, findActiveLatest store.subscriptions uid = some sub → writeOk = true →
      (create_or_extend_subscription store uid amount invId now days writeOk).row
        = some { sub with
            end_date := max sub.end_date now + days * SECONDS_PER_DAY,
            updated_at := some now } ∧
      (∃ q ∈ (create_or_extend_subscription store uid amount invId now days
          writeOk).store.subscriptions,
        q.id = sub.id ∧ q.end_date = max sub.end_date now + days * SECONDS_PER_DAY ∧
        q.start_date = sub.start_date ∧ q.updated_at = some now) ∧
      sub.end_date ≤ max sub.end_date now + days * SECONDS_PER_DAY ∧
      (create_or_extend_subscription store uid amount invId now days
        writeOk).cacheInvalidated = true) ∧
    (findActiveLatest store.subscriptions uid = Option.none → writeOk = true →
      (create_or_extend_subscription store uid amount invId now days writeOk).row
        = some { id := freshSubId store.subscriptions, user_id := uid,
                 status := "active", plan_type := "monthly", amount_paid := amount,
                 start_date := now, end_date := now + days * SECONDS_PER_DAY,
                 created_at := now, updated_at := Option.none } ∧
      (create_or_extend_subscription store uid amount invId now days
        writeOk).cacheInvalidated = true) ∧
    (writeOk = false →
      (create_or_extend_subscription store uid amount invId now days writeOk).row
        = Option.none) := by
  refine ⟨?_, ?_, ?_⟩
  · intro sub hfind hw
    subst hw
    unfold create_or_extend_subscription
    rw [htid, hfind]
    refine ⟨rfl, ?_, ?_, rfl⟩
    · have hmem := findActiveLatest_mem store.subscriptions uid sub hfind
      have h2 := List.mem_map_of_mem
        (fun s => if s.id = sub.id then
          { s with
            end_date := max sub.end_date now + days * SECONDS_PER_DAY,
            updated_at := some now } else s) hmem
      refine ⟨{ sub with
          end_date := max sub.end_date now + days * SECONDS_PER_DAY,
          updated_at := some now }, ?_, rfl, rfl, rfl, rfl⟩
      simpa using h2
    · have h1 : 0 ≤ days * SECONDS_PER_DAY :=
        mul_nonneg hdays (by norm_num [SECONDS_PER_DAY])
      have h2 : sub.end_date ≤ max sub.end_date now := le_max_left _ _
      omega
  · intro hfind hw
    subst hw
    unfold create_or_extend_subscription
    rw [htid, hfind]
    exact ⟨rfl, rfl⟩
  · intro hw
    subst hw
    unfold create_or_extend_subscription
    rw [htid]
    cases hfind : findActiveLatest store.subscriptions uid with
    | none => rfl
    | some sub => rfl

/-- C2 witness: extending the concrete active row ending at 5000 from
time 200 with a 30-day plan yields end date 5000 + 2592000 with start
date unchanged, and a failed write returns the failure signal. -/
theorem c2_create_or_extend_subscription_spec_witness :
    (create_or_extend_subscription ⟨[], [exSub]⟩ 42 1050 "inv1" 200 30 true).row
      = some { exSub with
          end_date := max exSub.end_date 200 + 30 * SECONDS_PER_DAY,
          updated_at := some 200 } ∧
    (create_or_extend_subscription ⟨[], [exSub]⟩ 42 1050 "inv1" 200 30
      true).cacheInvalidated = true ∧
    (create_or_extend_subscription ⟨[], [exSub]⟩ 42 1050 "inv1" 200 30 false).row
      = Option.none := by
  have h1 := c2_create_or_extend_subscription_spec ⟨[], [exSub]⟩ 42 1050 "inv1" 200 30
    true (by decide) (by decide)
  have h2 := c2_create_or_extend_subscription_spec ⟨[], [exSub]⟩ 42 1050 "inv1" 200 30
    false (by decide) (by decide)
  have hfind : findActiveLatest (Store.mk [] [exSub]).subscriptions 42 = some exSub := by
    decide
  exact ⟨(h1.1 exSub hfind rfl).1, (h1.1 exSub hfind rfl).2.2.2, h2.2.2 rfl⟩

set_option maxRecDepth 10000

/-- C8 counterexample: the in-memory fallback uses Python `set.pop()`,
which removes an arbitrary element; the step relation therefore admits an
execution on a full 1000-entry set where the element evicted is the one
JUST INSERTED (the newest), leaving the state equal to the old set: the
oldest entry (the head, "a") survives while the new entry is gone.  This
refutes the claim that the oldest-inserted entry is the one evicted. -/
theorem c8_oldest_evicted_counterexample :
    WEBHOOK_CACHE_SIZE < (memAdd evictBase "").length ∧
    mark_webhook_processed_fallback evictBase "" evictBase ∧
    "" ∉ evictBase ∧
    evictBase.head? = some "a" ∧
    "a" ∈ evictBase := by
  have hne : "" ∉ evictBase := by decide
  have hmem : ("" : String) ∈ memAdd evictBase "" := by
    unfold memAdd
    rw [if_neg hne]
    exact List.mem_append_right _ (List.mem_singleton.mpr rfl)
  have hlen : WEBHOOK_CACHE_SIZE < (memAdd evictBase "").length := by
    unfold memAdd
    rw [if_neg hne]
    simp [evictBase, WEBHOOK_CACHE_SIZE]
  have herase : (memAdd evictBase "").erase "" = evictBase := by
    unfold memAdd
    rw [if_neg hne]
    rw [List.erase_append_right _ hne]
    simp
  refine ⟨hlen, ?_, hne, by decide, by decide⟩
  have h := mark_webhook_processed_fallback.evict evictBase "" "" hlen hmem
  rwa [herase] at h

/-- C8 amended: when the shared cache is unavailable the Idempotency
Ledger degrades to the bounded in-process set: every
`mark_webhook_processed` step from a state within the 1000-entry capacity
leaves the set within capacity, and when the insertion overflows the
capacity exactly one element — some arbitrary member chosen by
`set.pop()`, not necessarily the oldest — is evicted. -/
theorem c8_fallback_capacity_bound (s : List String) (x : String) (t : List String)
    (hcap : s.length ≤ WEBHOOK_CACHE_SIZE)
    (hstep : mark_webhook_processed_fallback s x t) :
    t.length ≤ WEBHOOK_CACHE_SIZE ∧
    (WEBHOOK_CACHE_SIZE < (memAdd s x).length →
      ∃ y ∈ memAdd s x, t = (memAdd s x).erase y) := by
  cases hstep with
  | noEvict h =>
    refine ⟨h, ?_⟩
    intro hover
    omega
  | evict y h hy =>
    constructor
    · have h1 := memAdd_length_le s x
      have h2 := List.length_erase_of_mem hy
      rw [h2]
      omega
    · intro _
      exact ⟨y, hy, rfl⟩

/-- C8 amended witness: a single insertion into the empty fallback set
stays within capacity. -/
theorem c8_fallback_capacity_bound_witness :
    ([("a" : String)] : List String).length ≤ WEBHOOK_CACHE_SIZE ∧
    (WEBHOOK_CACHE_SIZE < (memAdd [] "a").length →
      ∃ y ∈ memAdd [] "a", [("a" : String)] = (memAdd [] "a").erase y) := by
  have hstep : mark_webhook_processed_fallback [] "a" [("a" : String)] := by
    have h := mark_webhook_processed_fallback.noEvict [] "a" (by decide)
    simpa [memAdd] using h
  exact c8_fallback_capacity_bound [] "a" [("a" : String)] (by decide) hstep
